import Mathlib

/-!
Verification development for the currency-conversion core of the
project-budget backend.

The embedding follows the two implementations the claims reference:

* the rate fetcher with retry and static fallback
  (`convertCurrency`, `FALLBACK_RATES`, `convertCurrencyWithFallback`);
* the historical-rate variant with a static mock-rate table and an
  API-key guard (`mockRates`, the historical `convertCurrency`, modelled
  here as `histConvertCurrency`).

Modelling conventions: JavaScript numbers are modelled as rationals
(`Rat`), so arithmetic is exact; the network is modelled as an
environment assigning to each attempt index the outcome of that
attempt (a transport error carrying the error code and message, or a
response body); JSON parsing of the body is abstracted into a
`ParseResult` (a body either fails to parse or yields the response
object); JavaScript truthiness tests on numbers (`if (rate)`) are
modelled as presence plus non-zero, and on optional strings
(`x || d`) as presence plus non-empty.  Each run records the number of
attempts made and the list of retry delays scheduled, so the retry
policy is part of the observable behaviour.
-/

namespace CurrencyCore

/-- The provider response object, as read by the fetcher: a `result`
status field, an `error_type` field, and the `conversion_rates` map
(each possibly absent). -/
structure ApiResponse where
  result : Option String
  error_type : Option String
  conversion_rates : Option (List (String × Rat))
deriving DecidableEq, Repr

/-- A successful conversion object: mirrors the object resolved by the
fetcher (`success`, currencies, `amount`, `rate`, `convertedAmount`)
plus the `fallback` flag, which is absent (hence read as `false`) on
the live path and `true` on the fallback path. -/
structure SuccessObj where
  success : Bool
  fromCurrency : String
  toCurrency : String
  amount : Rat
  rate : Rat
  convertedAmount : Rat
  fallback : Bool
deriving DecidableEq, Repr

/-- A rejection object: `error` message, `errorType` classification,
and the optional `retries` and `details` fields (present only on the
network-error and API-error paths respectively). -/
structure ErrObj where
  success : Bool
  error : String
  errorType : String
  retries : Option Nat
  details : Option ApiResponse
deriving DecidableEq, Repr

/-- Outcome of one fetch: the resolved object or the rejection object. -/
inductive FetchResult where
  | ok (value : SuccessObj)
  | failed (e : ErrObj)
deriving DecidableEq, Repr

/-- The body delivered by the `end` event, after `JSON.parse`: either
the parse throws (malformed body, carrying the thrown message) or it
yields a response object. -/
inductive ParseResult where
  | malformed (msg : String)
  | parsed (resp : ApiResponse)
deriving DecidableEq, Repr

/-- Outcome of one `https.get` attempt: a transport-level `error`
event (with the error `code` and message) or a complete response
body. -/
inductive HttpOutcome where
  | transportError (code : String) (msg : String)
  | response (body : ParseResult)
deriving DecidableEq, Repr

/-- One full run of the fetcher: how many attempts were made, the
delays (ms) scheduled before each retry in order, and the final
outcome. -/
structure FetchRun where
  attempts : Nat
  delays : List Nat
  result : FetchResult
deriving DecidableEq, Repr

/-- `MAX_RETRIES = 3` from the source. -/
def MAX_RETRIES : Nat := 3

/-- `RETRY_DELAY = 1000` (ms) from the source. -/
def RETRY_DELAY : Nat := 1000

/-- Property lookup `obj[key]` on the rates object. -/
def lookupRate : List (String × Rat) → String → Option Rat
  | [], _ => none
  | (c, r) :: rest, t => if c = t then some r else lookupRate rest t

/-- `response.error_type || 'Unknown error'` (JavaScript `||`: absent
or empty string falls back). -/
def orUnknown : Option String → String
  | none => "Unknown error"
  | some s => if s = "" then "Unknown error" else s

/-- Message of the TypeError thrown by indexing an absent
`conversion_rates` object (the exact runtime text is immaterial to the
claims; only the branch taken matters). -/
def typeErrorMessage (field : String) : String :=
  "Cannot read properties of undefined (reading " ++ field ++ ")"

/-- The `end` handler of the fetcher: parse the body; on `success`
extract `conversion_rates[toCurrency]` (a thrown TypeError when the
map is absent lands in the catch, hence `PARSE_ERROR`); a truthy rate
resolves with `convertedAmount = amount * rate`; a falsy rate rejects
with `CURRENCY_NOT_FOUND`; a non-success status rejects with
`API_ERROR` carrying the provider error identifier and the full
response in `details`; a parse failure rejects with `PARSE_ERROR`. -/
def handleEnd (fromCurrency toCurrency : String) (amount : Rat) :
    ParseResult → FetchResult
  | ParseResult.malformed msg =>
      FetchResult.failed
        ⟨false, "Failed to parse API response: " ++ msg, "PARSE_ERROR", none, none⟩
  | ParseResult.parsed resp =>
      if resp.result = some "success" then
        match resp.conversion_rates with
        | none =>
            FetchResult.failed
              ⟨false, "Failed to parse API response: " ++ typeErrorMessage toCurrency,
                "PARSE_ERROR", none, none⟩
        | some ca =>
            match lookupRate ca toCurrency with
            | some rate =>
                if rate = 0 then
                  FetchResult.failed
                    ⟨false, "Currency " ++ toCurrency ++ " not found in response",
                      "CURRENCY_NOT_FOUND", none, none⟩
                else
                  FetchResult.ok
                    ⟨true, fromCurrency, toCurrency, amount, rate, amount * rate, false⟩
            | none =>
                FetchResult.failed
                  ⟨false, "Currency " ++ toCurrency ++ " not found in response",
                    "CURRENCY_NOT_FOUND", none, none⟩
      else
        FetchResult.failed
          ⟨false, "API Error: " ++ orUnknown resp.error_type, "API_ERROR", none, some resp⟩

/-- `error.code === 'ECONNRESET' || error.code === 'ETIMEDOUT'`. -/
def isTransientCode (code : String) : Bool :=
  code == "ECONNRESET" || code == "ETIMEDOUT"

/-- The retry loop of the fetcher.  `retriesLeft` is kept equal to
`MAX_RETRIES - retryCount`, so the guard `retriesLeft` is a successor
iff `retryCount < MAX_RETRIES`, the source's retry condition; each
retry schedules a delay of `RETRY_DELAY * (retryCount + 1)` and
re-enters with `retryCount + 1`; a non-transient error code, or an
exhausted budget, rejects with `NETWORK_ERROR` carrying `retryCount`
in `retries`. -/
def convertCurrencyGo (env : Nat → HttpOutcome)
    (fromCurrency toCurrency : String) (amount : Rat) :
    Nat → Nat → FetchRun
  | retriesLeft, retryCount =>
    match env retryCount with
    | HttpOutcome.response body =>
        ⟨1, [], handleEnd fromCurrency toCurrency amount body⟩
    | HttpOutcome.transportError code msg =>
        if isTransientCode code then
          match retriesLeft with
          | Nat.succ rest =>
              let tail := convertCurrencyGo env fromCurrency toCurrency amount rest
                (retryCount + 1)
              ⟨tail.attempts + 1, RETRY_DELAY * (retryCount + 1) :: tail.delays, tail.result⟩
          | 0 =>
              ⟨1, [],
                FetchResult.failed
                  ⟨false, "Network error: " ++ msg, "NETWORK_ERROR", some retryCount, none⟩⟩
        else
          ⟨1, [],
            FetchResult.failed
              ⟨false, "Network error: " ++ msg, "NETWORK_ERROR", some retryCount, none⟩⟩

/-- The fetcher entered at a given `retryCount` (the source's optional
parameter). -/
def convertCurrencyFrom (env : Nat → HttpOutcome)
    (fromCurrency toCurrency : String) (amount : Rat) (retryCount : Nat) : FetchRun :=
  convertCurrencyGo env fromCurrency toCurrency amount (MAX_RETRIES - retryCount) retryCount

/-- `convertCurrency(fromCurrency, toCurrency, amount)` with the
default `retryCount = 0`. -/
def convertCurrency (env : Nat → HttpOutcome)
    (fromCurrency toCurrency : String) (amount : Rat) : FetchRun :=
  convertCurrencyFrom env fromCurrency toCurrency amount 0

/-- The static `FALLBACK_RATES` table from the source, as an exact
pair lookup. -/
def FALLBACK_RATES : String → String → Option Rat
  | "USD", "TTD" => some (675/100)
  | "USD", "EUR" => some (85/100)
  | "USD", "GBP" => some (73/100)
  | "EUR", "TTD" => some (794/100)
  | "EUR", "USD" => some (118/100)
  | "EUR", "GBP" => some (86/100)
  | "GBP", "TTD" => some (923/100)
  | "GBP", "USD" => some (137/100)
  | "GBP", "EUR" => some (116/100)
  | _, _ => none

/-- `convertCurrencyWithFallback`: run the fetcher; on rejection, a
truthy fallback-table entry resolves with the tabulated rate and
`fallback: true`; otherwise the original rejection object is
re-thrown unchanged. -/
def convertCurrencyWithFallback (env : Nat → HttpOutcome)
    (fromCurrency toCurrency : String) (amount : Rat) : FetchResult :=
  match (convertCurrency env fromCurrency toCurrency amount).result with
  | FetchResult.ok value => FetchResult.ok value
  | FetchResult.failed e =>
      match FALLBACK_RATES fromCurrency toCurrency with
      | some rate =>
          if rate = 0 then FetchResult.failed e
          else
            FetchResult.ok
              ⟨true, fromCurrency, toCurrency, amount, rate, amount * rate, true⟩
      | none => FetchResult.failed e

/-! ### Historical-rate variant (the library module with `mockRates`) -/

/-- The historical provider response: `result` status, the
`error-type` field, and the `conversion_amounts` map (each possibly
absent). -/
structure HistApiResponse where
  result : Option String
  error_type : Option String
  conversion_amounts : Option (List (String × Rat))
deriving DecidableEq, Repr

/-- The body delivered to the historical `end` handler: empty (the
`!data` guard), unparseable, or a parsed response object. -/
inductive HistBody where
  | empty
  | malformed (msg : String)
  | parsed (resp : HistApiResponse)
deriving DecidableEq, Repr

/-- Outcome of the single historical `https.get`: a transport `error`
event or a complete body. -/
inductive HistHttpOutcome where
  | transportError (msg : String)
  | response (body : HistBody)
deriving DecidableEq, Repr

/-- The object resolved by the historical variant: `success`,
`convertedAmount`, `rate`, currencies, the formatted `date`, and the
optional mock-rate `note`. -/
structure HistSuccess where
  success : Bool
  convertedAmount : Rat
  rate : Rat
  fromCurrency : String
  toCurrency : String
  date : String
  note : Option String
deriving DecidableEq, Repr

instance histOutcomeDecEq : DecidableEq (Except String HistSuccess) := fun a b =>
  match a, b with
  | Except.error x, Except.error y =>
      if h : x = y then isTrue (by rw [h])
      else isFalse (by intro hc; injection hc; exact h (by assumption))
  | Except.ok x, Except.ok y =>
      if h : x = y then isTrue (by rw [h])
      else isFalse (by intro hc; injection hc; exact h (by assumption))
  | Except.error _, Except.ok _ => isFalse (by intro hc; exact Except.noConfusion hc)
  | Except.ok _, Except.error _ => isFalse (by intro hc; exact Except.noConfusion hc)

/-- One run of the historical variant: whether the provider request
was issued at all, and the outcome (rejections carry the `Error`
message). -/
structure HistRun where
  requested : Bool
  result : Except String HistSuccess
deriving DecidableEq, Repr

/-- The static `mockRates` table: `TTD: 6.8` only. -/
def mockRates : String → Option Rat
  | "TTD" => some (68/10)
  | _ => none

/-- `response['error-type'] || 'Currency conversion failed'`. -/
def orFailed : Option String → String
  | none => "Currency conversion failed"
  | some s => if s = "" then "Currency conversion failed" else s

/-- The live branch of the historical variant: issue the request; a
transport error rejects; an empty body rejects; a parse failure, or
indexing an absent `conversion_amounts` (the logging line throws
before the status check), rejects as invalid structure; on `success` a
truthy rate resolves, a falsy rate falls back to the mock table or
rejects as unavailable; a non-success status rejects with the provider
error identifier. -/
def histLive (env : HistHttpOutcome) (amount : Rat)
    (fromCurrency toCurrency : String) (dateStr : String) : HistRun :=
  ⟨true,
    match env with
    | HistHttpOutcome.transportError msg =>
        Except.error ("Currency API request failed: " ++ msg)
    | HistHttpOutcome.response body =>
        match body with
        | HistBody.empty => Except.error "Empty response from currency API"
        | HistBody.malformed msg =>
            Except.error ("Invalid JSON or unexpected structure from currency API: " ++ msg)
        | HistBody.parsed resp =>
            match resp.conversion_amounts with
            | none =>
                Except.error ("Invalid JSON or unexpected structure from currency API: "
                  ++ typeErrorMessage toCurrency)
            | some ca =>
                if resp.result = some "success" then
                  match lookupRate ca toCurrency with
                  | some rate =>
                      if rate = 0 then
                        match mockRates toCurrency with
                        | some mockRate =>
                            if mockRate = 0 then
                              Except.error ("Conversion rate not available for " ++ toCurrency)
                            else
                              Except.ok ⟨true, amount * mockRate, mockRate, fromCurrency,
                                toCurrency, dateStr, some "Using mock conversion rate"⟩
                        | none =>
                            Except.error ("Conversion rate not available for " ++ toCurrency)
                      else
                        Except.ok ⟨true, amount * rate, rate, fromCurrency, toCurrency,
                          dateStr, none⟩
                  | none =>
                      match mockRates toCurrency with
                      | some mockRate =>
                          if mockRate = 0 then
                            Except.error ("Conversion rate not available for " ++ toCurrency)
                          else
                            Except.ok ⟨true, amount * mockRate, mockRate, fromCurrency,
                              toCurrency, dateStr, some "Using mock conversion rate"⟩
                      | none =>
                          Except.error ("Conversion rate not available for " ++ toCurrency)
                else Except.error (orFailed resp.error_type)⟩

/-- The historical `convertCurrency(amount, fromCurrency, toCurrency,
year, month, day)`: reject when the configured API key is falsy;
otherwise a truthy `mockRates[toCurrency]` entry resolves immediately
(no request issued); otherwise run the live branch. -/
def histConvertCurrency (apiKey : Option String) (env : HistHttpOutcome)
    (amount : Rat) (fromCurrency toCurrency : String)
    (year month day : String) : HistRun :=
  match apiKey with
  | none => ⟨false, Except.error "Currency API key not configured"⟩
  | some k =>
      if k = "" then ⟨false, Except.error "Currency API key not configured"⟩
      else
        match mockRates toCurrency with
        | some r =>
            if r = 0 then
              histLive env amount fromCurrency toCurrency
                (year ++ "-" ++ month ++ "-" ++ day)
            else
              ⟨false,
                Except.ok ⟨true, amount * r, r, fromCurrency, toCurrency,
                  year ++ "-" ++ month ++ "-" ++ day, some "Using mock conversion rate"⟩⟩
        | none =>
            histLive env amount fromCurrency toCurrency
              (year ++ "-" ++ month ++ "-" ++ day)

/-! ### Concrete fixtures used by witnesses and counterexamples -/

/-- ASCII upper-casing of one character (the canonical form the spec
asks for). -/
def upperChar (c : Char) : Char :=
  if ('a' ≤ c ∧ c ≤ 'z') then Char.ofNat (c.toNat - 32) else c

/-- ASCII upper-casing of a currency code. -/
def asciiUpper (s : String) : String := String.mk (s.data.map upperChar)

/-- Every attempt fails with a non-transient transport error
(connection refused). -/
def unreachableEnv : Nat → HttpOutcome :=
  fun _ => HttpOutcome.transportError "ECONNREFUSED" "connect ECONNREFUSED"

/-- Every attempt fails with a transient transport error (connection
reset). -/
def resetEnv : Nat → HttpOutcome :=
  fun _ => HttpOutcome.transportError "ECONNRESET" "socket hang up"

/-- Every attempt delivers a body that fails to parse. -/
def malformedEnv : Nat → HttpOutcome :=
  fun _ => HttpOutcome.response (ParseResult.malformed "Unexpected token")

/-- A successful provider response quoting TTD at 6.75. -/
def ttdResp : ApiResponse := ⟨some "success", none, some [("TTD", 675/100)]⟩

/-- Every attempt delivers `ttdResp`. -/
def ttdEnv : Nat → HttpOutcome :=
  fun _ => HttpOutcome.response (ParseResult.parsed ttdResp)

/-- A provider response reporting failure with identifier
`invalid-key`. -/
def errResp : ApiResponse := ⟨some "error", some "invalid-key", none⟩

/-- Every attempt delivers `errResp`. -/
def errEnv : Nat → HttpOutcome :=
  fun _ => HttpOutcome.response (ParseResult.parsed errResp)

/-- A successful provider response quoting only the upper-case code
`TTD` (integral rate, so that kernel evaluation decides it). -/
def caseResp : ApiResponse := ⟨some "success", none, some [("TTD", 7)]⟩

/-- Every attempt delivers `caseResp`. -/
def caseEnv : Nat → HttpOutcome :=
  fun _ => HttpOutcome.response (ParseResult.parsed caseResp)

/-- A historical provider response quoting a live TTD rate. -/
def liveTtdResp : HistApiResponse := ⟨some "success", none, some [("TTD", 7)]⟩

/-- The historical request delivers `liveTtdResp`. -/
def liveTtdEnv : HistHttpOutcome := HistHttpOutcome.response (HistBody.parsed liveTtdResp)

/-! ### Evaluation lemmas for the retry loop -/

/-- A delivered response ends the run after this single attempt, with
the outcome computed by the `end` handler. -/
theorem convertCurrencyGo_response {env : Nat → HttpOutcome}
    (fromCurrency toCurrency : String) (amount : Rat)
    {retriesLeft retryCount : Nat} {body : ParseResult}
    (h : env retryCount = HttpOutcome.response body) :
    convertCurrencyGo env fromCurrency toCurrency amount retriesLeft retryCount =
      ⟨1, [], handleEnd fromCurrency toCurrency amount body⟩ := by
  rw [convertCurrencyGo, h]

/-- A transient transport error with budget remaining schedules a
delay of `RETRY_DELAY * (retryCount + 1)` and re-enters the loop. -/
theorem convertCurrencyGo_transient_step {env : Nat → HttpOutcome}
    (fromCurrency toCurrency : String) (amount : Rat) (rest : Nat)
    {retryCount : Nat} {code msg : String}
    (h : env retryCount = HttpOutcome.transportError code msg)
    (ht : isTransientCode code = true) :
    convertCurrencyGo env fromCurrency toCurrency amount (rest + 1) retryCount =
      ⟨(convertCurrencyGo env fromCurrency toCurrency amount rest (retryCount + 1)).attempts + 1,
        RETRY_DELAY * (retryCount + 1) ::
          (convertCurrencyGo env fromCurrency toCurrency amount rest (retryCount + 1)).delays,
        (convertCurrencyGo env fromCurrency toCurrency amount rest (retryCount + 1)).result⟩ := by
  rw [convertCurrencyGo, h]
  simp [ht]

/-- A transient transport error with the budget exhausted rejects with
`NETWORK_ERROR` carrying the current `retryCount`. -/
theorem convertCurrencyGo_exhausted {env : Nat → HttpOutcome}
    (fromCurrency toCurrency : String) (amount : Rat)
    {retryCount : Nat} {code msg : String}
    (h : env retryCount = HttpOutcome.transportError code msg)
    (ht : isTransientCode code = true) :
    convertCurrencyGo env fromCurrency toCurrency amount 0 retryCount =
      ⟨1, [], FetchResult.failed
        ⟨false, "Network error: " ++ msg, "NETWORK_ERROR", some retryCount, none⟩⟩ := by
  rw [convertCurrencyGo, h]
  simp [ht]

/-- A non-transient transport error rejects at once, whatever budget
remains. -/
theorem convertCurrencyGo_nontransient {env : Nat → HttpOutcome}
    (fromCurrency toCurrency : String) (amount : Rat)
    {retriesLeft retryCount : Nat} {code msg : String}
    (h : env retryCount = HttpOutcome.transportError code msg)
    (ht : isTransientCode code = false) :
    convertCurrencyGo env fromCurrency toCurrency amount retriesLeft retryCount =
      ⟨1, [], FetchResult.failed
        ⟨false, "Network error: " ++ msg, "NETWORK_ERROR", some retryCount, none⟩⟩ := by
  rw [convertCurrencyGo, h]
  simp [ht]

/-- Every entry of the static fallback table is non-zero (so the
JavaScript truthiness test on a hit always passes). -/
theorem fallback_rate_ne_zero (f t : String) (r : Rat)
    (h : FALLBACK_RATES f t = some r) : r ≠ 0 := by
  unfold FALLBACK_RATES at h
  split at h <;> simp_all <;> norm_num [← h]

/-- Every entry of the mock-rate table is non-zero. -/
theorem mock_rate_ne_zero (t : String) (r : Rat)
    (h : mockRates t = some r) : r ≠ 0 := by
  unfold mockRates at h
  split at h <;> simp_all <;> norm_num [← h]

/-! ### Claim theorems -/

/-- C1: for every pair present in the static fallback table, whenever
the live fetch fails for any reason, `convertCurrencyWithFallback`
succeeds with the `fallback` flag set, the tabulated rate, and
`convertedAmount = amount * rate`. -/
theorem fallback_covers_fetch_failure
    (env : Nat → HttpOutcome) (fromCurrency toCurrency : String) (amount rate : Rat)
    (e : ErrObj)
    (htab : FALLBACK_RATES fromCurrency toCurrency = some rate)
    (hfail : (convertCurrency env fromCurrency toCurrency amount).result =
      FetchResult.failed e) :
    convertCurrencyWithFallback env fromCurrency toCurrency amount =
      FetchResult.ok ⟨true, fromCurrency, toCurrency, amount, rate, amount * rate, true⟩ := by
  have hnz := fallback_rate_ne_zero fromCurrency toCurrency rate htab
  unfold convertCurrencyWithFallback
  rw [hfail, htab]
  simp only [if_neg hnz]

/-- C1 witness: `convert("USD", "TTD", 100)` with the provider
unreachable yields rate 6.75, converted amount 675, fallback flag
set. -/
theorem fallback_covers_fetch_failure_witness :
    convertCurrencyWithFallback unreachableEnv "USD" "TTD" 100 =
      FetchResult.ok ⟨true, "USD", "TTD", 100, 675/100, 675, true⟩ := by
  have h := fallback_covers_fetch_failure unreachableEnv "USD" "TTD" 100 (675/100)
    ⟨false, "Network error: connect ECONNREFUSED", "NETWORK_ERROR", some 0, none⟩
    rfl (by decide)
  rw [show ((100 : Rat) * (675/100)) = 675 by norm_num] at h
  exact h

/-- C2: when the provider responds with `success` and a (truthy) rate
for the target currency, the conversion succeeds with
`convertedAmount = amount * rate` and the `fallback` flag false on
the live path. -/
theorem live_success_converts_exactly
    (env : Nat → HttpOutcome) (fromCurrency toCurrency : String) (amount rate : Rat)
    (resp : ApiResponse) (ca : List (String × Rat))
    (henv : env 0 = HttpOutcome.response (ParseResult.parsed resp))
    (hres : resp.result = some "success")
    (hca : resp.conversion_rates = some ca)
    (hrate : lookupRate ca toCurrency = some rate) (hnz : rate ≠ 0) :
    convertCurrencyWithFallback env fromCurrency toCurrency amount =
      FetchResult.ok ⟨true, fromCurrency, toCurrency, amount, rate, amount * rate, false⟩ := by
  have hrun : (convertCurrency env fromCurrency toCurrency amount).result =
      FetchResult.ok ⟨true, fromCurrency, toCurrency, amount, rate, amount * rate, false⟩ := by
    unfold convertCurrency convertCurrencyFrom
    rw [convertCurrencyGo_response fromCurrency toCurrency amount henv]
    simp only [handleEnd, hres, hca, hrate, if_neg hnz]
    exact if_pos trivial
  unfold convertCurrencyWithFallback
  rw [hrun]

/-- C2 witness: `convert("USD", "TTD", 100)` with the provider quoting
6.75 yields converted amount 675 with the fallback flag false. -/
theorem live_success_converts_exactly_witness :
    convertCurrencyWithFallback ttdEnv "USD" "TTD" 100 =
      FetchResult.ok ⟨true, "USD", "TTD", 100, 675/100, 675, false⟩ := by
  have h := live_success_converts_exactly ttdEnv "USD" "TTD" 100 (675/100) ttdResp
    [("TTD", 675/100)] rfl rfl rfl rfl (by norm_num)
  rw [show ((100 : Rat) * (675/100)) = 675 by norm_num] at h
  exact h

/-- C3: when every attempt fails with a transient transport error
(connection reset or timeout), the fetcher makes exactly
`MAX_RETRIES + 1 = 4` attempts, the delay before the n-th retry is
`RETRY_DELAY * n` (hence non-decreasing), and the final rejection is a
`NETWORK_ERROR` carrying `MAX_RETRIES` retries. -/
theorem transient_failure_exhausts_retry_budget
    (env : Nat → HttpOutcome) (fromCurrency toCurrency : String) (amount : Rat)
    (htrans : ∀ n, ∃ code msg, env n = HttpOutcome.transportError code msg ∧
      isTransientCode code = true) :
    (convertCurrency env fromCurrency toCurrency amount).attempts = MAX_RETRIES + 1 ∧
    (convertCurrency env fromCurrency toCurrency amount).delays =
      [RETRY_DELAY * 1, RETRY_DELAY * 2, RETRY_DELAY * 3] ∧
    List.Chain' (fun a b => a ≤ b)
      (convertCurrency env fromCurrency toCurrency amount).delays ∧
    (∃ msg, (convertCurrency env fromCurrency toCurrency amount).result =
      FetchResult.failed ⟨false, "Network error: " ++ msg, "NETWORK_ERROR",
        some MAX_RETRIES, none⟩) := by
  obtain ⟨c0, m0, he0, ht0⟩ := htrans 0
  obtain ⟨c1, m1, he1, ht1⟩ := htrans 1
  obtain ⟨c2, m2, he2, ht2⟩ := htrans 2
  obtain ⟨c3, m3, he3, ht3⟩ := htrans 3
  have e3 := convertCurrencyGo_exhausted fromCurrency toCurrency amount he3 ht3
  have e2 := convertCurrencyGo_transient_step fromCurrency toCurrency amount 0 he2 ht2
  norm_num at e2
  rw [e3] at e2
  norm_num at e2
  have e1 := convertCurrencyGo_transient_step fromCurrency toCurrency amount 1 he1 ht1
  norm_num at e1
  rw [e2] at e1
  norm_num at e1
  have e0 := convertCurrencyGo_transient_step fromCurrency toCurrency amount 2 he0 ht0
  norm_num at e0
  rw [e1] at e0
  norm_num at e0
  have hc : convertCurrency env fromCurrency toCurrency amount =
      convertCurrencyGo env fromCurrency toCurrency amount 3 0 := by
    unfold convertCurrency convertCurrencyFrom
    norm_num [MAX_RETRIES]
  rw [hc, e0]
  refine ⟨rfl, by norm_num, by norm_num [RETRY_DELAY], m3, rfl⟩

/-- C3 witness: with every attempt resetting the connection, the run
makes 4 attempts with delays 1000, 2000, 3000 ms and rejects with
`NETWORK_ERROR` after 3 retries. -/
theorem transient_failure_exhausts_retry_budget_witness :
    (convertCurrency resetEnv "USD" "TTD" 100).attempts = 4 ∧
    (convertCurrency resetEnv "USD" "TTD" 100).delays = [1000, 2000, 3000] ∧
    (convertCurrency resetEnv "USD" "TTD" 100).result =
      FetchResult.failed ⟨false, "Network error: socket hang up", "NETWORK_ERROR",
        some 3, none⟩ := by
  have h := transient_failure_exhausts_retry_budget resetEnv "USD" "TTD" 100
    (fun n => ⟨"ECONNRESET", "socket hang up", rfl, rfl⟩)
  obtain ⟨h1, h2, h3, msg, h4⟩ := h
  refine ⟨h1, ?_, by decide⟩
  rw [h2]
  norm_num [RETRY_DELAY]

/-- C4: any delivered response ends the run at the first occurrence
with no retry scheduled; in particular a malformed body rejects with
`PARSE_ERROR`, a provider-reported failure status with `API_ERROR`,
and a missing target currency with `CURRENCY_NOT_FOUND`, each after
exactly one attempt and an empty delay list. -/
theorem application_failures_terminal_immediately
    (env : Nat → HttpOutcome) (fromCurrency toCurrency : String) (amount : Rat)
    (body : ParseResult)
    (henv : env 0 = HttpOutcome.response body) :
    convertCurrency env fromCurrency toCurrency amount =
      ⟨1, [], handleEnd fromCurrency toCurrency amount body⟩ ∧
    (∀ msg, body = ParseResult.malformed msg →
      (convertCurrency env fromCurrency toCurrency amount).result =
        FetchResult.failed ⟨false, "Failed to parse API response: " ++ msg,
          "PARSE_ERROR", none, none⟩) ∧
    (∀ resp, body = ParseResult.parsed resp → resp.result ≠ some "success" →
      ∃ e, (convertCurrency env fromCurrency toCurrency amount).result =
        FetchResult.failed e ∧ e.errorType = "API_ERROR") ∧
    (∀ resp ca, body = ParseResult.parsed resp → resp.result = some "success" →
      resp.conversion_rates = some ca → lookupRate ca toCurrency = none →
      ∃ e, (convertCurrency env fromCurrency toCurrency amount).result =
        FetchResult.failed e ∧ e.errorType = "CURRENCY_NOT_FOUND") := by
  have hrun : convertCurrency env fromCurrency toCurrency amount =
      ⟨1, [], handleEnd fromCurrency toCurrency amount body⟩ := by
    unfold convertCurrency convertCurrencyFrom
    exact convertCurrencyGo_response fromCurrency toCurrency amount henv
  refine ⟨hrun, ?_, ?_, ?_⟩
  · intro msg hbody
    subst hbody
    rw [hrun]
    simp only [handleEnd]
  · intro resp hbody hne
    subst hbody
    rw [hrun]
    refine ⟨⟨false, "API Error: " ++ orUnknown resp.error_type, "API_ERROR",
      none, some resp⟩, ?_, rfl⟩
    simp only [handleEnd, if_neg hne]
  · intro resp ca hbody hres hca hmiss
    subst hbody
    rw [hrun]
    refine ⟨⟨false, "Currency " ++ toCurrency ++ " not found in response",
      "CURRENCY_NOT_FOUND", none, none⟩, ?_, rfl⟩
    simp only [handleEnd, hres, hca, hmiss, if_pos rfl]
    exact if_pos trivial

/-- C4 witness: a malformed body rejects with `PARSE_ERROR` after one
attempt and no scheduled retry. -/
theorem application_failures_terminal_immediately_witness :
    convertCurrency malformedEnv "USD" "TTD" 100 =
      ⟨1, [], FetchResult.failed ⟨false, "Failed to parse API response: Unexpected token",
        "PARSE_ERROR", none, none⟩⟩ := by
  have h := application_failures_terminal_immediately malformedEnv "USD" "TTD" 100
    (ParseResult.malformed "Unexpected token") rfl
  rw [h.1]
  rfl

/-- C5: for every pair absent from the fallback table, when the live
fetch fails, `convertCurrencyWithFallback` rejects with exactly the
original classified rejection object, unchanged. -/
theorem fallback_miss_surfaces_original_rejection
    (env : Nat → HttpOutcome) (fromCurrency toCurrency : String) (amount : Rat)
    (e : ErrObj)
    (hmiss : FALLBACK_RATES fromCurrency toCurrency = none)
    (hfail : (convertCurrency env fromCurrency toCurrency amount).result =
      FetchResult.failed e) :
    convertCurrencyWithFallback env fromCurrency toCurrency amount =
      FetchResult.failed e := by
  unfold convertCurrencyWithFallback
  rw [hfail, hmiss]

/-- C5 witness: `convert("USD", "JPY", 100)` with the provider
unreachable surfaces the original `NETWORK_ERROR` object (USD to JPY
is not tabulated). -/
theorem fallback_miss_surfaces_original_rejection_witness :
    convertCurrencyWithFallback unreachableEnv "USD" "JPY" 100 =
      FetchResult.failed ⟨false, "Network error: connect ECONNREFUSED",
        "NETWORK_ERROR", some 0, none⟩ :=
  fallback_miss_surfaces_original_rejection unreachableEnv "USD" "JPY" 100
    ⟨false, "Network error: connect ECONNREFUSED", "NETWORK_ERROR", some 0, none⟩
    rfl (by decide)

/-- C6: on a `success` response missing the target currency the
fetcher rejects with errorType `CURRENCY_NOT_FOUND`; on a non-success
response it rejects with errorType `API_ERROR` (the code realisation
of the ProviderError classification), carrying the provider-reported
error identifier in the message and the full response in `details`. -/
theorem provider_outcome_classification
    (env : Nat → HttpOutcome) (fromCurrency toCurrency : String) (amount : Rat)
    (resp : ApiResponse)
    (henv : env 0 = HttpOutcome.response (ParseResult.parsed resp)) :
    (∀ ca, resp.result = some "success" → resp.conversion_rates = some ca →
      lookupRate ca toCurrency = none →
      (convertCurrency env fromCurrency toCurrency amount).result =
        FetchResult.failed ⟨false, "Currency " ++ toCurrency ++ " not found in response",
          "CURRENCY_NOT_FOUND", none, none⟩) ∧
    (resp.result ≠ some "success" →
      (convertCurrency env fromCurrency toCurrency amount).result =
        FetchResult.failed ⟨false, "API Error: " ++ orUnknown resp.error_type,
          "API_ERROR", none, some resp⟩) := by
  have hrun : convertCurrency env fromCurrency toCurrency amount =
      ⟨1, [], handleEnd fromCurrency toCurrency amount (ParseResult.parsed resp)⟩ := by
    unfold convertCurrency convertCurrencyFrom
    exact convertCurrencyGo_response fromCurrency toCurrency amount henv
  constructor
  · intro ca hres hca hmiss
    rw [hrun]
    simp only [handleEnd, hres, hca, hmiss, if_pos rfl]
    exact if_pos trivial
  · intro hne
    rw [hrun]
    simp only [handleEnd, if_neg hne]

/-- C6 witness: `convert("USD", "XYZ", 50)` against a response quoting
only TTD rejects with `CURRENCY_NOT_FOUND`; a failure response with
identifier `invalid-key` rejects with `API_ERROR` carrying it. -/
theorem provider_outcome_classification_witness :
    (convertCurrency ttdEnv "USD" "XYZ" 50).result =
      FetchResult.failed ⟨false, "Currency XYZ not found in response",
        "CURRENCY_NOT_FOUND", none, none⟩ ∧
    (convertCurrency errEnv "USD" "TTD" 50).result =
      FetchResult.failed ⟨false, "API Error: invalid-key", "API_ERROR",
        none, some errResp⟩ := by
  constructor
  · exact (provider_outcome_classification ttdEnv "USD" "XYZ" 50 ttdResp rfl).1
      [("TTD", 675/100)] rfl rfl rfl
  · have h := (provider_outcome_classification errEnv "USD" "TTD" 50 errResp rfl).2
      (by simp [errResp])
    rw [h]
    rfl

/-- C7: in the historical variant, any target currency with a truthy
mock rate resolves from the mock table with the note set and no
provider request issued, for every possible live outcome (the mock
rate takes priority over any live historical rate). -/
theorem mock_rate_short_circuits_live_lookup
    (key : String) (env : HistHttpOutcome) (amount : Rat)
    (fromCurrency toCurrency : String) (year month day : String) (rate : Rat)
    (hkey : key ≠ "") (hmock : mockRates toCurrency = some rate) :
    histConvertCurrency (some key) env amount fromCurrency toCurrency year month day =
      ⟨false, Except.ok ⟨true, amount * rate, rate, fromCurrency, toCurrency,
        year ++ "-" ++ month ++ "-" ++ day, some "Using mock conversion rate"⟩⟩ := by
  have hnz := mock_rate_ne_zero toCurrency rate hmock
  simp only [histConvertCurrency, hmock, if_neg hkey, if_neg hnz]

/-- C7 witness: converting to TTD uses the mock rate 6.8 (no request
issued) even though the live response would quote TTD at 7. -/
theorem mock_rate_short_circuits_live_lookup_witness :
    (histConvertCurrency (some "key123") liveTtdEnv 100 "USD" "TTD" "2024" "01" "01" =
      ⟨false, Except.ok ⟨true, 680, 68/10, "USD", "TTD", "2024-01-01",
        some "Using mock conversion rate"⟩⟩) ∧
    histLive liveTtdEnv 100 "USD" "TTD" "2024-01-01" =
      ⟨true, Except.ok ⟨true, 700, 7, "USD", "TTD", "2024-01-01", none⟩⟩ := by
  constructor
  · have h := mock_rate_short_circuits_live_lookup "key123" liveTtdEnv 100 "USD" "TTD"
      "2024" "01" "01" (68/10) (by decide) rfl
    rw [show ((100 : Rat) * (68/10)) = 680 by norm_num] at h
    exact h
  · simp only [histLive, liveTtdEnv, liveTtdResp, lookupRate]
    norm_num

/-- C8 counterexample: the fetcher does not treat currency codes
case-insensitively: against the same provider response quoting only
`TTD`, the target `ttd` produces a different result than `TTD`, so
case-variant inputs do not extract the same rate. -/
theorem case_normalization_counterexample :
    (convertCurrency caseEnv "USD" "ttd" 100).result ≠
      (convertCurrency caseEnv "USD" "TTD" 100).result := by decide

/-- C8 amended: the fetcher uses the target currency code verbatim
(no upper-casing): even when the upper-cased code is present in the
returned rate set, a lookup with the original spelling missing from
the set rejects with `CURRENCY_NOT_FOUND`. -/
theorem currency_codes_used_verbatim
    (env : Nat → HttpOutcome) (fromCurrency toCurrency : String)
    (amount upperRate : Rat) (resp : ApiResponse) (ca : List (String × Rat))
    (henv : env 0 = HttpOutcome.response (ParseResult.parsed resp))
    (hres : resp.result = some "success")
    (hca : resp.conversion_rates = some ca)
    (hupper : lookupRate ca (asciiUpper toCurrency) = some upperRate)
    (hmiss : lookupRate ca toCurrency = none) :
    (convertCurrency env fromCurrency toCurrency amount).result =
      FetchResult.failed ⟨false, "Currency " ++ toCurrency ++ " not found in response",
        "CURRENCY_NOT_FOUND", none, none⟩ := by
  have hrun : convertCurrency env fromCurrency toCurrency amount =
      ⟨1, [], handleEnd fromCurrency toCurrency amount (ParseResult.parsed resp)⟩ := by
    unfold convertCurrency convertCurrencyFrom
    exact convertCurrencyGo_response fromCurrency toCurrency amount henv
  rw [hrun]
  simp only [handleEnd, hres, hca, hmiss, if_pos rfl]
  exact if_pos trivial

/-- C8 amended witness: target `ttd` rejects with
`CURRENCY_NOT_FOUND` although `TTD` is quoted at rate 7. -/
theorem currency_codes_used_verbatim_witness :
    (convertCurrency caseEnv "USD" "ttd" 100).result =
      FetchResult.failed ⟨false, "Currency ttd not found in response",
        "CURRENCY_NOT_FOUND", none, none⟩ :=
  currency_codes_used_verbatim caseEnv "USD" "ttd" 100 7 caseResp [("TTD", 7)]
    rfl rfl rfl (by decide) rfl

/-- C9: a transport error whose code is neither `ECONNRESET` nor
`ETIMEDOUT` rejects at once with `NETWORK_ERROR` and `retries` equal
to the retries made so far (`retryCount`), scheduling no further
attempt whatever budget remains. -/
theorem nontransient_code_rejects_immediately
    (env : Nat → HttpOutcome) (fromCurrency toCurrency : String) (amount : Rat)
    (retryCount : Nat) (code msg : String)
    (henv : env retryCount = HttpOutcome.transportError code msg)
    (hcode : isTransientCode code = false) :
    convertCurrencyFrom env fromCurrency toCurrency amount retryCount =
      ⟨1, [], FetchResult.failed ⟨false, "Network error: " ++ msg, "NETWORK_ERROR",
        some retryCount, none⟩⟩ := by
  unfold convertCurrencyFrom
  exact convertCurrencyGo_nontransient fromCurrency toCurrency amount henv hcode

/-- C9 witness: `ECONNREFUSED` on the first attempt rejects with
`retries = 0`, a single attempt and no scheduled delay. -/
theorem nontransient_code_rejects_immediately_witness :
    convertCurrencyFrom unreachableEnv "USD" "TTD" 100 0 =
      ⟨1, [], FetchResult.failed ⟨false, "Network error: connect ECONNREFUSED",
        "NETWORK_ERROR", some 0, none⟩⟩ :=
  nontransient_code_rejects_immediately unreachableEnv "USD" "TTD" 100 0
    "ECONNREFUSED" "connect ECONNREFUSED" rfl rfl

/-- C10: with no API key configured (absent or empty), the historical
variant rejects with the key-not-configured error for every input,
including targets with a mock rate, and issues no request. -/
theorem missing_api_key_rejects_all_inputs
    (apiKey : Option String) (env : HistHttpOutcome) (amount : Rat)
    (fromCurrency toCurrency year month day : String)
    (hkey : apiKey = none ∨ apiKey = some "") :
    histConvertCurrency apiKey env amount fromCurrency toCurrency year month day =
      ⟨false, Except.error "Currency API key not configured"⟩ := by
  rcases hkey with h | h
  · subst h
    simp [histConvertCurrency]
  · subst h
    simp [histConvertCurrency]

/-- C10 witness: with no key, converting to TTD (which has a mock
rate) still rejects with the key-not-configured error. -/
theorem missing_api_key_rejects_all_inputs_witness :
    histConvertCurrency none liveTtdEnv 100 "USD" "TTD" "2024" "01" "01" =
      ⟨false, Except.error "Currency API key not configured"⟩ :=
  missing_api_key_rejects_all_inputs none liveTtdEnv 100 "USD" "TTD" "2024" "01" "01"
    (Or.inl rfl)

end CurrencyCore
